import Mathlib

/-!
Shallow embedding of `scripts/jira_weekly_report.py`: a pipeline that turns a
time window into three tracker (Jira) queries, runs them against the tracker's
search endpoint, aggregates the results into a summary, renders the summary as
an HTML email body, and either prints it (dry run) or sends it over SMTP.

Dates are modelled as calendar dates (the script only ever formats datetimes
with `%Y-%m-%d` and `.date()`), HTTP and SMTP as injected functions from
requests to `Except`-valued responses, and the observable effects of a run
(tracker calls, printing, mail sending) as an explicit event trace.
-/

/-- Calendar date; stands in for `datetime.datetime` (only the date part is
ever observed by the script, via `strftime('%Y-%m-%d')` and `.date()`). -/
structure Date where
  year : Nat
  month : Nat
  day : Nat
deriving DecidableEq, Repr

/-- Zero-pad a number to two digits, as `strftime` does for `%m`/`%d`. -/
def pad2 (n : Nat) : String :=
  if n < 10 then "0" ++ Nat.repr n else Nat.repr n

/-- Zero-pad a number to four digits, as `strftime` does for `%Y`. -/
def pad4 (n : Nat) : String :=
  if n < 10 then "000" ++ Nat.repr n
  else if n < 100 then "00" ++ Nat.repr n
  else if n < 1000 then "0" ++ Nat.repr n
  else Nat.repr n

/-- `d.strftime('%Y-%m-%d')` (also the string form of `d.date()`). -/
def fmtDate (d : Date) : String :=
  pad4 d.year ++ "-" ++ pad2 d.month ++ "-" ++ pad2 d.day

/-- Chronological order on dates (lexicographic year, month, day). -/
def dateLe (a b : Date) : Prop :=
  a.year < b.year ∨ (a.year = b.year ∧
    (a.month < b.month ∨ (a.month = b.month ∧ a.day ≤ b.day)))

instance (a b : Date) : Decidable (dateLe a b) := by
  unfold dateLe; infer_instance

/-- Gregorian leap year rule. -/
def isLeap (y : Nat) : Bool :=
  (y % 4 = 0 && y % 100 != 0) || y % 400 = 0

/-- Number of days in a month of a given year. -/
def daysInMonth (y m : Nat) : Nat :=
  if m = 2 then (if isLeap y then 29 else 28)
  else if m = 4 || m = 6 || m = 9 || m = 11 then 30
  else 31

/-- The calendar day before `d`. -/
def prevDay (d : Date) : Date :=
  if d.day > 1 then ⟨d.year, d.month, d.day - 1⟩
  else if d.month > 1 then ⟨d.year, d.month - 1, daysInMonth d.year (d.month - 1)⟩
  else ⟨d.year - 1, 12, 31⟩

/-- `d - datetime.timedelta(days=n)` at date granularity. -/
def subDays (d : Date) : Nat → Date
  | 0 => d
  | n + 1 => prevDay (subDays d n)

/-- `pat` occurs as a contiguous substring of `s` (Python's `pat in s`). -/
def strHas (s pat : String) : Prop :=
  pat.data <:+: s.data

instance (s pat : String) : Decidable (strHas s pat) := by
  unfold strHas; infer_instance

/-- The process environment: `os.environ` / `os.getenv`. -/
def Env : Type := String → Option String

/-- Python truthiness test `not os.getenv(name)`: unset or empty counts as
missing. -/
def envMissing (env : Env) (name : String) : Bool :=
  match env name with
  | none => true
  | some v => v = ""

/-- `str.lower()` (ASCII, which is all the script compares). -/
def pyLower (s : String) : String :=
  String.mk (s.data.map Char.toLower)

/-- `str.rstrip('/')`: drop all trailing slashes. -/
def rstripSlashes (s : String) : String :=
  String.mk ((s.data.reverse.dropWhile (fun c => c = '/')).reverse)

/-- Value of a decimal digit character. -/
def digitsVal (l : List Char) : Nat :=
  l.foldl (fun acc c => 10 * acc + (c.toNat - 48)) 0

/-- Python `int(s)` on a string: optional minus sign followed by digits;
anything else raises `ValueError` (modelled as `none`). -/
def pyInt? (s : String) : Option Int :=
  match s.data with
  | [] => none
  | '-' :: rest =>
      if rest ≠ [] ∧ rest.all Char.isDigit then some (-(digitsVal rest : Int)) else none
  | l =>
      if l.all Char.isDigit then some (digitsVal l : Int) else none

/-- Errors the configuration loaders can raise: `EnvironmentError` for missing
variables, `ValueError` from `int()` on a malformed port. -/
inductive PyConfigError
  | environmentError (msg : String)
  | valueError (msg : String)
deriving DecidableEq, Repr

/-- `JiraConfig` dataclass. -/
structure JiraConfig where
  base_url : String
  project_key : String
  auth_email : String
  api_token : String
  verify_ssl : Bool := true
deriving DecidableEq, Repr

/-- Environment variables `JiraConfig.from_env` requires. -/
def jiraRequiredVars : List String :=
  ["JIRA_BASE_URL", "JIRA_PROJECT_KEY", "JIRA_AUTH_EMAIL", "JIRA_API_TOKEN"]

/-- `JiraConfig.from_env`. -/
def JiraConfig.from_env (env : Env) : Except PyConfigError JiraConfig :=
  let missing := jiraRequiredVars.filter (envMissing env)
  if missing ≠ [] then
    .error (.environmentError
      ("Missing required environment variables: " ++ String.intercalate ", " missing))
  else
    .ok { base_url := rstripSlashes ((env "JIRA_BASE_URL").getD "")
          project_key := (env "JIRA_PROJECT_KEY").getD ""
          auth_email := (env "JIRA_AUTH_EMAIL").getD ""
          api_token := (env "JIRA_API_TOKEN").getD ""
          verify_ssl := pyLower ((env "JIRA_VERIFY_SSL").getD "true") == "true" }

/-- `SmtpConfig` dataclass. -/
structure SmtpConfig where
  host : String
  port : Int
  username : String
  password : String
  sender : String
  recipient : String
  use_tls : Bool := true
deriving DecidableEq, Repr

/-- Environment variables `SmtpConfig.from_env` requires. -/
def smtpRequiredVars : List String :=
  ["SMTP_HOST", "SMTP_PORT", "SMTP_USERNAME", "SMTP_PASSWORD", "SMTP_SENDER", "SMTP_RECIPIENT"]

/-- `SmtpConfig.from_env`: the missing-variable check runs first; only then is
the port parsed with `int()` (which may raise `ValueError`). -/
def SmtpConfig.from_env (env : Env) : Except PyConfigError SmtpConfig :=
  let missing := smtpRequiredVars.filter (envMissing env)
  if missing ≠ [] then
    .error (.environmentError
      ("Missing required SMTP environment variables: " ++ String.intercalate ", " missing))
  else
    match pyInt? ((env "SMTP_PORT").getD "") with
    | none => .error (.valueError "invalid literal for int()")
    | some p =>
      .ok { host := (env "SMTP_HOST").getD ""
            port := p
            username := (env "SMTP_USERNAME").getD ""
            password := (env "SMTP_PASSWORD").getD ""
            sender := (env "SMTP_SENDER").getD ""
            recipient := (env "SMTP_RECIPIENT").getD ""
            use_tls := pyLower ((env "SMTP_USE_TLS").getD "true") == "true" }

/-- `JiraIssueSummary` dataclass; `issue_keys` is the insertion-ordered dict
`label -> list of keys`. -/
structure JiraIssueSummary where
  created_count : Nat
  resolved_count : Nat
  open_count : Nat
  issue_keys : List (String × List String)
deriving DecidableEq, Repr

/-- The `date_range` helper string of `build_jql` (note it hard-codes the
field name `created` for the upper bound). -/
def date_range (start end_ : Date) : String :=
  " >= '" ++ fmtDate start ++ "' AND created <= '" ++ fmtDate end_ ++ "'"

/-- The `created` clause of `build_jql`, with the optional extra filter
conjoined when non-empty. -/
def created_clause (project_key : String) (start end_ : Date) (extra_filters : String) : String :=
  let base := "project = " ++ project_key ++ " AND created" ++ date_range start end_
  if extra_filters = "" then base else base ++ " AND " ++ extra_filters

/-- The `resolved` clause of `build_jql`. -/
def resolved_clause (project_key : String) (start end_ : Date) (extra_filters : String) : String :=
  let base := "project = " ++ project_key ++ " AND resolved >= '" ++ fmtDate start ++
    "' AND resolved <= '" ++ fmtDate end_ ++ "'"
  if extra_filters = "" then base else base ++ " AND " ++ extra_filters

/-- The `open` clause of `build_jql` (only a lower bound on `updated`). -/
def open_clause (project_key : String) (start end_ : Date) (extra_filters : String) : String :=
  let base := "project = " ++ project_key ++ " AND statusCategory != Done AND updated >= '" ++
    fmtDate start ++ "'"
  if extra_filters = "" then base else base ++ " AND " ++ extra_filters

/-- `build_jql`: the returned dict, as its insertion-ordered association
list. -/
def build_jql (project_key : String) (start end_ : Date) (extra_filters : String) :
    List (String × String) :=
  [("created", created_clause project_key start end_ extra_filters),
   ("resolved", resolved_clause project_key start end_ extra_filters),
   ("open", open_clause project_key start end_ extra_filters)]

/-- JSON object for one element of the response's `issues` array. -/
structure Issue where
  key : String
deriving DecidableEq, Repr

/-- The parsed JSON body of a search response: `total` and `issues` may each
be absent (the code uses `data.get`). -/
structure JsonBody where
  total : Option Nat
  issues : Option (List Issue)
deriving DecidableEq, Repr

/-- An HTTP response from the tracker. -/
structure Response where
  status_code : Nat
  text : String
  json : JsonBody
deriving DecidableEq, Repr

/-- The HTTP GET request `call_jira_api` issues via `requests.get`. -/
structure Request where
  url : String
  jql : String
  fields : String
  maxResults : Nat
  auth : String × String
  headers : List (String × String)
  verify : Bool
  timeout : Nat
deriving DecidableEq, Repr

/-- The request `call_jira_api` builds from the config and query string. -/
def buildRequest (config : JiraConfig) (jql : String) : Request :=
  { url := config.base_url ++ "/rest/api/3/search"
    jql := jql
    fields := "key"
    maxResults := 1000
    auth := (config.auth_email, config.api_token)
    headers := [("Accept", "application/json")]
    verify := config.verify_ssl
    timeout := 30 }

/-- Errors `call_jira_api` can raise: a re-raised `requests.RequestException`
(network-level: DNS, connection, timeout), or the `RuntimeError` raised on a
non-200 status. -/
inductive CallError
  | transport (exc : String)
  | runtimeError (msg : String)
deriving DecidableEq, Repr

/-- The network: maps a request to a response, or to a
`requests.RequestException` (modelled by its message). -/
def Http : Type := Request → Except String Response

/-- `call_jira_api`: issues the GET; re-raises network failures; raises
`RuntimeError (f"Jira API error {status}")` on any non-200 status; on 200
returns `(data.get("total", len(issue_keys)), issue_keys)`. -/
def call_jira_api (http : Http) (config : JiraConfig) (jql : String) :
    Except CallError (Nat × List String) :=
  match http (buildRequest config jql) with
  | .error exc => .error (.transport exc)
  | .ok response =>
    if response.status_code ≠ 200 then
      .error (.runtimeError ("Jira API error " ++ Nat.repr response.status_code))
    else
      let issue_keys := (response.json.issues.getD []).map Issue.key
      .ok (response.json.total.getD issue_keys.length, issue_keys)

/-- Observable effects of a run: a tracker search, a `print`, or a call to
`send_email`. -/
inductive Event
  | trackerCall (jql : String)
  | printed (s : String)
  | mailSend (subject body : String)
deriving DecidableEq, Repr

/-- The loop body of `summarize_issues`: run the labelled queries in order,
recording each tracker call, stopping at the first failure (the exception
aborts the loop). Returns the trace and, on success, the per-label
`(total, keys)` rows in call order. -/
def runQueries (call : String → Except CallError (Nat × List String)) :
    List (String × String) → List Event × Except CallError (List (String × Nat × List String))
  | [] => ([], .ok [])
  | (label, jql) :: rest =>
    match call jql with
    | .error e => ([.trackerCall jql], .error e)
    | .ok (total, keys) =>
      let (evs, res) := runQueries call rest
      (.trackerCall jql :: evs, res.map (fun rows => (label, total, keys) :: rows))

/-- `summarize_issues`: builds the query set, runs the three queries in dict
order (`created`, `resolved`, `open`), and on success assembles the summary
with `counts.get(label, 0)` lookups. -/
def summarize_issues (http : Http) (config : JiraConfig) (start end_ : Date)
    (extra_filters : String) : List Event × Except CallError JiraIssueSummary :=
  let jql_queries := build_jql config.project_key start end_ extra_filters
  let (evs, res) := runQueries (call_jira_api http config) jql_queries
  (evs, res.map (fun rows =>
    { created_count := ((rows.lookup "created").map Prod.fst).getD 0
      resolved_count := ((rows.lookup "resolved").map Prod.fst).getD 0
      open_count := ((rows.lookup "open").map Prod.fst).getD 0
      issue_keys := rows.map (fun r => (r.1, r.2.2)) }))

/-- Python `str.title()`: a letter is uppercased when the previous character is
not a letter, lowercased otherwise. -/
def pyTitleGo : Bool → List Char → List Char
  | _, [] => []
  | prevAlpha, c :: cs =>
    if c.isAlpha then
      (if prevAlpha then c.toLower else c.toUpper) :: pyTitleGo true cs
    else
      c :: pyTitleGo false cs

/-- `str.title()`. -/
def pyTitle (s : String) : String :=
  String.mk (pyTitleGo false s.data)

/-- Python `"".join(parts)`. -/
def strJoin : List String → String
  | [] => ""
  | a :: rest => a ++ strJoin rest

/-- The `<li><a href='…'>…</a></li>` item rendered for one issue key. -/
def linkItem (config : JiraConfig) (key : String) : String :=
  "<li><a href='" ++ config.base_url ++ "/browse/" ++ key ++ "'>" ++ key ++ "</a></li>"

/-- The lines `build_email_body` appends for one `(label, keys)` dict entry:
the sub-heading, then either the no-issues notice or an `<ul>` of links. -/
def labelSection (config : JiraConfig) (label : String) (keys : List String) : List String :=
  ("<p><strong>" ++ pyTitle label ++ " issues</strong>:</p>") ::
  (if keys = [] then
    ["<p>No issues found.</p>"]
  else
    ["<ul>" ++ strJoin (keys.map (linkItem config)) ++ "</ul>"])

/-- The `lines` list `build_email_body` accumulates. -/
def bodyLines (summary : JiraIssueSummary) (config : JiraConfig) : List String :=
  ["<h2>Weekly Jira Project Summary</h2>",
   "<ul>",
   "  <li>Issues created: <strong>" ++ Nat.repr summary.created_count ++ "</strong></li>",
   "  <li>Issues resolved: <strong>" ++ Nat.repr summary.resolved_count ++ "</strong></li>",
   "  <li>Issues currently open: <strong>" ++ Nat.repr summary.open_count ++ "</strong></li>",
   "</ul>",
   "<h3>Issue Links</h3>"] ++
  (summary.issue_keys.map (fun p => labelSection config p.1 p.2)).flatten

/-- Python `"\n".join(lines)`. -/
def joinLines : List String → String
  | [] => ""
  | [a] => a
  | a :: b :: rest => a ++ "\n" ++ joinLines (b :: rest)

/-- `build_email_body`. -/
def build_email_body (summary : JiraIssueSummary) (config : JiraConfig) : String :=
  joinLines (bodyLines summary config)

/-- State of the link scanner used to parse rendered markup back into links:
`s0`–`s5` track how much of the literal `href='` has been matched, `href`
accumulates the URL up to the closing quote, `gtEx` awaits the `>` that ends
the anchor's open tag, and `txt` accumulates the link text up to `<`. -/
inductive ScanSt
  | s0 | s1 | s2 | s3 | s4 | s5
  | href (acc : List Char)
  | gtEx (acc : List Char)
  | txt (url : List Char) (acc : List Char)
deriving DecidableEq, Repr

/-- One transition of the link scanner. -/
def stepSt : ScanSt → Char → ScanSt
  | .s0, c => if c = 'h' then .s1 else .s0
  | .s1, c => if c = 'r' then .s2 else if c = 'h' then .s1 else .s0
  | .s2, c => if c = 'e' then .s3 else if c = 'h' then .s1 else .s0
  | .s3, c => if c = 'f' then .s4 else if c = 'h' then .s1 else .s0
  | .s4, c => if c = '=' then .s5 else if c = 'h' then .s1 else .s0
  | .s5, c => if c = '\'' then .href [] else if c = 'h' then .s1 else .s0
  | .href acc, c => if c = '\'' then .gtEx acc else .href (acc ++ [c])
  | .gtEx acc, c => if c = '>' then .txt acc [] else if c = 'h' then .s1 else .s0
  | .txt url acc, c => if c = '<' then .s0 else .txt url (acc ++ [c])

/-- The link emitted (if any) by one transition: a `(href, text)` pair is
produced when the link text is closed by `<`. -/
def stepOut : ScanSt → Char → List (String × String)
  | .txt url acc, c => if c = '<' then [(String.mk url, String.mk acc)] else []
  | _, _ => []

/-- Run the scanner's state over a character list. -/
def runSt (st : ScanSt) (l : List Char) : ScanSt :=
  l.foldl stepSt st

/-- All links the scanner emits over a character list, in order. -/
def runOut : ScanSt → List Char → List (String × String)
  | _, [] => []
  | st, c :: cs => stepOut st c ++ runOut (stepSt st c) cs

/-- Extract, in order, the `(href, text)` pairs of the `<a href='…'>…</a>`
anchors of a markup string. -/
def extractLinks (s : String) : List (String × String) :=
  runOut .s0 s.data

/-- The SMTP transport: delivers (config, subject, body), failing with an
`smtplib.SMTPException` message. -/
def Smtp : Type := SmtpConfig → String → String → Except String Unit

/-- Parsed command-line arguments (`--days`, `--filters`, `--dry-run`). -/
structure Args where
  days : Nat
  filters : String
  dryRun : Bool

/-- Exit code for success. -/
def exitSuccess : Nat := 0
/-- Exit code when configuration loading fails. -/
def exitConfigError : Nat := 1
/-- Exit code when summarization fails. -/
def exitSummarizeError : Nat := 2
/-- Exit code when email delivery fails. -/
def exitDeliveryError : Nat := 3

/-- The script's `main` (named `mainRun` because Lean reserves `main` for IO
entry points). Returns the event trace and the exit code; an uncaught
exception (only a `ValueError` escaping the config `try`, whose `except`
clause catches `EnvironmentError` alone) is an `.error`. The clock
(`datetime.utcnow`) is the `now` parameter. -/
def mainRun (env : Env) (http : Http) (smtpSend : Smtp) (args : Args) (now : Date) :
    Except PyConfigError (List Event × Nat) :=
  let end_ := now
  let start := subDays now args.days
  match JiraConfig.from_env env with
  | .error (.environmentError _) => .ok ([], exitConfigError)
  | .error e => .error e
  | .ok jira_config =>
    match SmtpConfig.from_env env with
    | .error (.environmentError _) => .ok ([], exitConfigError)
    | .error e => .error e
    | .ok smtp_config =>
      match summarize_issues http jira_config start end_ args.filters with
      | (evs, .error _) => .ok (evs, exitSummarizeError)
      | (evs, .ok summary) =>
        let body := build_email_body summary jira_config
        let subject := "Weekly Jira Report for " ++ jira_config.project_key ++
          " (" ++ fmtDate start ++ " - " ++ fmtDate end_ ++ ")"
        let evs := evs ++ [Event.printed body]
        if args.dryRun then
          .ok (evs, exitSuccess)
        else
          match smtpSend smtp_config subject body with
          | .error _ => .ok (evs ++ [Event.mailSend subject body], exitDeliveryError)
          | .ok _ => .ok (evs ++ [Event.mailSend subject body], exitSuccess)

/-! ## Generic substring lemmas -/

lemma strHas_of_split (a pat b s : String) (h : a ++ pat ++ b = s) : strHas s pat := by
  subst h
  exact ⟨a.data, b.data, by simp [String.data_append]⟩

lemma strHas_append_left (s t pat : String) (h : strHas s pat) : strHas (s ++ t) pat := by
  obtain ⟨u, v, huv⟩ := h
  exact ⟨u, v ++ t.data, by simp [String.data_append, ← huv]⟩

lemma string_eq_of_data {s t : String} (h : s.data = t.data) : s = t := String.ext h

/-! ## QueryBuilder lemmas -/

lemma created_clause_contains (pk : String) (s e : Date) (f : String) :
    strHas (created_clause pk s e f) pk ∧ strHas (created_clause pk s e f) (fmtDate s) ∧
      strHas (created_clause pk s e f) (fmtDate e) := by
  have hbase : ∀ pat a b, a ++ pat ++ b = "project = " ++ pk ++ " AND created" ++ date_range s e →
      strHas (created_clause pk s e f) pat := by
    intro pat a b h
    unfold created_clause
    split
    · exact strHas_of_split a pat b _ h
    · exact strHas_append_left _ _ _ (strHas_append_left _ _ _ (strHas_of_split a pat b _ h))
  refine ⟨hbase pk "project = " (" AND created" ++ date_range s e) ?_,
    hbase (fmtDate s) ("project = " ++ pk ++ " AND created >= '")
      ("' AND created <= '" ++ fmtDate e ++ "'") ?_,
    hbase (fmtDate e) ("project = " ++ pk ++ " AND created >= '" ++ fmtDate s ++ "' AND created <= '")
      "'" ?_⟩ <;>
  · apply string_eq_of_data
    simp [String.data_append, date_range, List.append_assoc]

lemma resolved_clause_contains (pk : String) (s e : Date) (f : String) :
    strHas (resolved_clause pk s e f) pk ∧ strHas (resolved_clause pk s e f) (fmtDate s) ∧
      strHas (resolved_clause pk s e f) (fmtDate e) := by
  have hbase : ∀ pat a b, a ++ pat ++ b = "project = " ++ pk ++ " AND resolved >= '" ++
      fmtDate s ++ "' AND resolved <= '" ++ fmtDate e ++ "'" →
      strHas (resolved_clause pk s e f) pat := by
    intro pat a b h
    unfold resolved_clause
    split
    · exact strHas_of_split a pat b _ h
    · exact strHas_append_left _ _ _ (strHas_append_left _ _ _ (strHas_of_split a pat b _ h))
  refine ⟨hbase pk "project = " (" AND resolved >= '" ++ fmtDate s ++ "' AND resolved <= '" ++
      fmtDate e ++ "'") ?_,
    hbase (fmtDate s) ("project = " ++ pk ++ " AND resolved >= '")
      ("' AND resolved <= '" ++ fmtDate e ++ "'") ?_,
    hbase (fmtDate e) ("project = " ++ pk ++ " AND resolved >= '" ++ fmtDate s ++
      "' AND resolved <= '") "'" ?_⟩ <;>
  · apply string_eq_of_data
    simp [String.data_append, List.append_assoc]

lemma open_clause_contains (pk : String) (s e : Date) (f : String) :
    strHas (open_clause pk s e f) pk ∧ strHas (open_clause pk s e f) (fmtDate s) := by
  have hbase : ∀ pat a b, a ++ pat ++ b = "project = " ++ pk ++
      " AND statusCategory != Done AND updated >= '" ++ fmtDate s ++ "'" →
      strHas (open_clause pk s e f) pat := by
    intro pat a b h
    unfold open_clause
    split
    · exact strHas_of_split a pat b _ h
    · exact strHas_append_left _ _ _ (strHas_append_left _ _ _ (strHas_of_split a pat b _ h))
  refine ⟨hbase pk "project = " (" AND statusCategory != Done AND updated >= '" ++
      fmtDate s ++ "'") ?_,
    hbase (fmtDate s) ("project = " ++ pk ++ " AND statusCategory != Done AND updated >= '")
      "'" ?_⟩ <;>
  · apply string_eq_of_data
    simp [String.data_append, List.append_assoc]

lemma created_clause_ne_empty (pk : String) (s e : Date) (f : String) :
    created_clause pk s e f ≠ "" := by
  unfold created_clause
  split <;> intro h <;>
    · have := congrArg String.data h
      simp [String.data_append] at this

lemma resolved_clause_ne_empty (pk : String) (s e : Date) (f : String) :
    resolved_clause pk s e f ≠ "" := by
  unfold resolved_clause
  split <;> intro h <;>
    · have := congrArg String.data h
      simp [String.data_append] at this

lemma open_clause_ne_empty (pk : String) (s e : Date) (f : String) :
    open_clause pk s e f ≠ "" := by
  unfold open_clause
  split <;> intro h <;>
    · have := congrArg String.data h
      simp [String.data_append] at this

/-- C1, amended: for every window with `start <= end` (and any extra filter),
the `created` and `resolved` query strings contain the project key and both
boundary dates; the `open` query string contains the project key and the
window's start date, but is only bounded below on `updated` (no end date);
all three query strings are non-empty, and `build_jql` produces exactly
three of them. -/
theorem C1_query_strings_contain_bounds (pk : String) (s e : Date) (f : String)
    (h : dateLe s e) :
    (strHas (created_clause pk s e f) pk ∧ strHas (created_clause pk s e f) (fmtDate s) ∧
      strHas (created_clause pk s e f) (fmtDate e) ∧ created_clause pk s e f ≠ "") ∧
    (strHas (resolved_clause pk s e f) pk ∧ strHas (resolved_clause pk s e f) (fmtDate s) ∧
      strHas (resolved_clause pk s e f) (fmtDate e) ∧ resolved_clause pk s e f ≠ "") ∧
    (strHas (open_clause pk s e f) pk ∧ strHas (open_clause pk s e f) (fmtDate s) ∧
      open_clause pk s e f ≠ "") ∧
    (build_jql pk s e f).length = 3 := by
  obtain ⟨c1, c2, c3⟩ := created_clause_contains pk s e f
  obtain ⟨r1, r2, r3⟩ := resolved_clause_contains pk s e f
  obtain ⟨o1, o2⟩ := open_clause_contains pk s e f
  exact ⟨⟨c1, c2, c3, created_clause_ne_empty pk s e f⟩,
    ⟨r1, r2, r3, resolved_clause_ne_empty pk s e f⟩,
    ⟨o1, o2, open_clause_ne_empty pk s e f⟩, rfl⟩

/-- Witness for C1: the amended statement at a concrete window. -/
theorem C1_query_strings_contain_bounds_witness :
    dateLe ⟨2024, 1, 1⟩ ⟨2024, 1, 8⟩ ∧
    strHas (created_clause "SCAL" ⟨2024, 1, 1⟩ ⟨2024, 1, 8⟩ "") (fmtDate ⟨2024, 1, 8⟩) :=
  ⟨by decide,
    (C1_query_strings_contain_bounds "SCAL" ⟨2024, 1, 1⟩ ⟨2024, 1, 8⟩ "" (by decide)).1.2.2.1⟩

set_option maxRecDepth 4000 in
/-- Counterexample to C1 as stated: for the valid window 2024-01-01 ..
2024-01-08 and project `SCAL`, the `open` query string does not contain the
window's end date at all, so it does not bound `updated` by the end date. -/
theorem C1_counterexample :
    dateLe ⟨2024, 1, 1⟩ ⟨2024, 1, 8⟩ ∧
    ¬ strHas (open_clause "SCAL" ⟨2024, 1, 1⟩ ⟨2024, 1, 8⟩ "") (fmtDate ⟨2024, 1, 8⟩) := by
  decide

lemma created_clause_filter (pk : String) (s e : Date) (extra : String) (hne : extra ≠ "") :
    created_clause pk s e extra = created_clause pk s e "" ++ " AND " ++ extra := by
  unfold created_clause
  simp [if_neg hne]

lemma resolved_clause_filter (pk : String) (s e : Date) (extra : String) (hne : extra ≠ "") :
    resolved_clause pk s e extra = resolved_clause pk s e "" ++ " AND " ++ extra := by
  unfold resolved_clause
  simp [if_neg hne]

lemma open_clause_filter (pk : String) (s e : Date) (extra : String) (hne : extra ≠ "") :
    open_clause pk s e extra = open_clause pk s e "" ++ " AND " ++ extra := by
  unfold open_clause
  simp [if_neg hne]

lemma strHas_suffix (s pat : String) : strHas (s ++ pat) pat := by
  refine strHas_of_split s pat "" _ ?_
  apply string_eq_of_data
  simp [String.data_append]

/-- C6: a non-empty `extra_filter` is conjoined verbatim with ` AND ` onto all
three clauses (each produced query string is the corresponding filter-free
query string followed by ` AND ` and the filter, and hence contains the
conjoined filter as a substring); with an empty filter each clause is exactly
its base form with nothing appended; and the builder is deterministic
(building twice from the same inputs yields identical query strings). -/
theorem C6_extra_filter_conjoined (pk : String) (s e : Date) (extra : String) :
    (extra ≠ "" →
      created_clause pk s e extra = created_clause pk s e "" ++ " AND " ++ extra ∧
      resolved_clause pk s e extra = resolved_clause pk s e "" ++ " AND " ++ extra ∧
      open_clause pk s e extra = open_clause pk s e "" ++ " AND " ++ extra ∧
      ∀ q ∈ (build_jql pk s e extra).map Prod.snd, strHas q (" AND " ++ extra)) ∧
    (extra = "" →
      created_clause pk s e extra =
        "project = " ++ pk ++ " AND created" ++ date_range s e ∧
      resolved_clause pk s e extra =
        "project = " ++ pk ++ " AND resolved >= '" ++ fmtDate s ++
          "' AND resolved <= '" ++ fmtDate e ++ "'" ∧
      open_clause pk s e extra =
        "project = " ++ pk ++ " AND statusCategory != Done AND updated >= '" ++
          fmtDate s ++ "'") ∧
    build_jql pk s e extra = build_jql pk s e extra := by
  refine ⟨fun hne => ⟨created_clause_filter pk s e extra hne,
      resolved_clause_filter pk s e extra hne,
      open_clause_filter pk s e extra hne, ?_⟩, fun he => ?_, rfl⟩
  · intro q hq
    simp [build_jql] at hq
    rcases hq with rfl | rfl | rfl
    · rw [created_clause_filter pk s e extra hne, String.append_assoc]
      exact strHas_suffix _ _
    · rw [resolved_clause_filter pk s e extra hne, String.append_assoc]
      exact strHas_suffix _ _
    · rw [open_clause_filter pk s e extra hne, String.append_assoc]
      exact strHas_suffix _ _
  · subst he
    refine ⟨?_, ?_, ?_⟩ <;> simp [created_clause, resolved_clause, open_clause]

/-- Witness for C6: with the concrete filter `priority = High`, the `open`
query string is the filter-free query followed by the conjoined filter. -/
theorem C6_extra_filter_conjoined_witness :
    ("priority = High" ≠ "") ∧
    open_clause "SCAL" ⟨2024, 1, 1⟩ ⟨2024, 1, 8⟩ "priority = High" =
      open_clause "SCAL" ⟨2024, 1, 1⟩ ⟨2024, 1, 8⟩ "" ++ " AND " ++ "priority = High" :=
  ⟨by decide,
    ((C6_extra_filter_conjoined "SCAL" ⟨2024, 1, 1⟩ ⟨2024, 1, 8⟩ "priority = High").1
      (by decide)).2.2.1⟩

/-! ## TrackerClient lemmas -/

lemma call_jira_api_transport (http : Http) (config : JiraConfig) (jql : String) (exc : String)
    (h : http (buildRequest config jql) = .error exc) :
    call_jira_api http config jql = .error (.transport exc) := by
  unfold call_jira_api
  rw [h]

lemma call_jira_api_non200 (http : Http) (config : JiraConfig) (jql : String) (r : Response)
    (h : http (buildRequest config jql) = .ok r) (hs : r.status_code ≠ 200) :
    call_jira_api http config jql =
      .error (.runtimeError ("Jira API error " ++ Nat.repr r.status_code)) := by
  unfold call_jira_api
  rw [h]
  simp [hs]

lemma call_jira_api_200 (http : Http) (config : JiraConfig) (jql : String) (r : Response)
    (h : http (buildRequest config jql) = .ok r) (hs : r.status_code = 200) :
    call_jira_api http config jql =
      .ok (r.json.total.getD ((r.json.issues.getD []).map Issue.key).length,
        (r.json.issues.getD []).map Issue.key) := by
  unfold call_jira_api
  rw [h]
  simp [hs]

/-- C3, amended: every network-level failure of the GET is re-raised as a
transport failure; every non-200 response raises a `RuntimeError` whose
message carries the HTTP status code — but not the response body, which is
only logged — and no non-200 response ever yields a result; the request uses
a fixed timeout of 30 time units. -/
theorem C3_error_handling (http : Http) (config : JiraConfig) (jql : String) :
    (∀ exc, http (buildRequest config jql) = .error exc →
      call_jira_api http config jql = .error (.transport exc)) ∧
    (∀ r, http (buildRequest config jql) = .ok r → r.status_code ≠ 200 →
      call_jira_api http config jql =
        .error (.runtimeError ("Jira API error " ++ Nat.repr r.status_code)) ∧
      strHas ("Jira API error " ++ Nat.repr r.status_code) (Nat.repr r.status_code) ∧
      ∀ v, call_jira_api http config jql ≠ .ok v) ∧
    (buildRequest config jql).timeout = 30 := by
  refine ⟨fun exc h => call_jira_api_transport http config jql exc h,
    fun r h hs => ⟨call_jira_api_non200 http config jql r h hs, strHas_suffix _ _, ?_⟩, rfl⟩
  intro v hv
  rw [call_jira_api_non200 http config jql r h hs] at hv
  exact Except.noConfusion hv

/-- Witness for C3: a concrete 404 response is turned into the
`RuntimeError`-style failure carrying the status code. -/
theorem C3_error_handling_witness :
    call_jira_api (fun _ => .ok ⟨404, "not found", ⟨none, none⟩⟩)
      ⟨"https://x", "P", "a", "t", true⟩ "q" =
      .error (.runtimeError ("Jira API error " ++ Nat.repr 404)) :=
  ((C3_error_handling (fun _ => .ok ⟨404, "not found", ⟨none, none⟩⟩)
      ⟨"https://x", "P", "a", "t", true⟩ "q").2.1
    ⟨404, "not found", ⟨none, none⟩⟩ rfl (by decide)).1

/-- Counterexample to C3 as stated: on a 500 response with body
`Internal Server Error`, the raised failure's message is exactly
`Jira API error 500`; it does not contain the response body. -/
theorem C3_counterexample :
    call_jira_api (fun _ => .ok ⟨500, "Internal Server Error", ⟨none, none⟩⟩)
      ⟨"https://x", "P", "a", "t", true⟩ "q" =
      .error (.runtimeError "Jira API error 500") ∧
    ¬ strHas "Jira API error 500" "Internal Server Error" := by
  exact ⟨rfl, by decide⟩

/-- C4: the request carries a fixed page cap of 1000 (`maxResults`); for every
200 response whose `issues` array respects that cap, the returned key list has
length at most 1000; and the reported total may exceed the cap — there is a
run returning `total = 5000` with a single key. -/
theorem C4_page_cap (http : Http) (config : JiraConfig) (jql : String) :
    (buildRequest config jql).maxResults = 1000 ∧
    (∀ r, http (buildRequest config jql) = .ok r → r.status_code = 200 →
      (r.json.issues.getD []).length ≤ (buildRequest config jql).maxResults →
      ∃ total keys, call_jira_api http config jql = .ok (total, keys) ∧
        keys.length ≤ 1000) ∧
    (∃ http2 : Http, ∃ total keys, call_jira_api http2 config jql = .ok (total, keys) ∧
      total > 1000 ∧ keys.length ≤ 1000) := by
  refine ⟨rfl, fun r h hs hlen => ?_, ?_⟩
  · refine ⟨_, _, call_jira_api_200 http config jql r h hs, ?_⟩
    simpa using hlen
  · refine ⟨fun _ => .ok ⟨200, "", ⟨some 5000, some [⟨"K-1"⟩]⟩⟩, 5000, ["K-1"], ?_, by omega, by simp⟩
    rfl

/-- Witness for C4: a concrete 200 response with three issues yields a key
list of length at most 1000. -/
theorem C4_page_cap_witness :
    ∃ total keys,
      call_jira_api (fun _ => .ok ⟨200, "", ⟨some 5000, some [⟨"A-1"⟩, ⟨"A-2"⟩, ⟨"A-3"⟩]⟩⟩)
        ⟨"https://x", "P", "a", "t", true⟩ "q" = .ok (total, keys) ∧
      keys.length ≤ 1000 :=
  (C4_page_cap (fun _ => .ok ⟨200, "", ⟨some 5000, some [⟨"A-1"⟩, ⟨"A-2"⟩, ⟨"A-3"⟩]⟩⟩)
      ⟨"https://x", "P", "a", "t", true⟩ "q").2.1
    ⟨200, "", ⟨some 5000, some [⟨"A-1"⟩, ⟨"A-2"⟩, ⟨"A-3"⟩]⟩⟩ rfl rfl (by decide)

/-- C7: on a 200 response the client returns the server's `total` when
present, or else the number of returned keys, together with the issue keys in
server order. -/
theorem C7_success_parsing (http : Http) (config : JiraConfig) (jql : String) (r : Response)
    (hr : http (buildRequest config jql) = .ok r) (h200 : r.status_code = 200) :
    call_jira_api http config jql =
      .ok (r.json.total.getD ((r.json.issues.getD []).map Issue.key).length,
        (r.json.issues.getD []).map Issue.key) ∧
    (∀ t, r.json.total = some t →
      call_jira_api http config jql = .ok (t, (r.json.issues.getD []).map Issue.key)) ∧
    (r.json.total = none →
      call_jira_api http config jql =
        .ok (((r.json.issues.getD []).map Issue.key).length,
          (r.json.issues.getD []).map Issue.key)) := by
  refine ⟨call_jira_api_200 http config jql r hr h200, fun t ht => ?_, fun ht => ?_⟩ <;>
    rw [call_jira_api_200 http config jql r hr h200, ht] <;> rfl

/-- Witness for C7: with `total` absent and two issues, the client returns
`(2, [the two keys])`. -/
theorem C7_success_parsing_witness :
    call_jira_api (fun _ => .ok ⟨200, "", ⟨none, some [⟨"B-7"⟩, ⟨"B-3"⟩]⟩⟩)
      ⟨"https://x", "P", "a", "t", true⟩ "q" = .ok (2, ["B-7", "B-3"]) :=
  ((C7_success_parsing (fun _ => .ok ⟨200, "", ⟨none, some [⟨"B-7"⟩, ⟨"B-3"⟩]⟩⟩)
      ⟨"https://x", "P", "a", "t", true⟩ "q" ⟨200, "", ⟨none, some [⟨"B-7"⟩, ⟨"B-3"⟩]⟩⟩
      rfl rfl).2.2) rfl

/-! ## Digit-character lemmas and clause distinctness -/

lemma digitChar_isDigit (m : Nat) (h : m < 10) : (Nat.digitChar m).isDigit := by
  interval_cases m <;> decide

lemma toDigitsCore_mem (fuel : Nat) : ∀ (n : Nat) (ds : List Char),
    ∀ c ∈ Nat.toDigitsCore 10 fuel n ds, c.isDigit ∨ c ∈ ds := by
  induction fuel with
  | zero => intro n ds c hc; exact Or.inr hc
  | succ f ih =>
    intro n ds c hc
    rw [Nat.toDigitsCore] at hc
    by_cases hz : n / 10 = 0
    · simp only [hz, if_true] at hc
      rcases List.mem_cons.mp hc with rfl | hmem
      · exact Or.inl (digitChar_isDigit _ (Nat.mod_lt _ (by omega)))
      · exact Or.inr hmem
    · simp only [hz, if_false] at hc
      rcases ih _ _ c hc with hd | hmem
      · exact Or.inl hd
      · rcases List.mem_cons.mp hmem with rfl | hmem2
        · exact Or.inl (digitChar_isDigit _ (Nat.mod_lt _ (by omega)))
        · exact Or.inr hmem2

lemma repr_all_digits (n : Nat) : ∀ c ∈ (Nat.repr n).data, c.isDigit := by
  intro c hc
  have h : c.isDigit ∨ c ∈ ([] : List Char) := toDigitsCore_mem (n + 1) n [] c hc
  simpa using h

lemma pad2_chars (n : Nat) : ∀ c ∈ (pad2 n).data, c.isDigit := by
  intro c hc
  unfold pad2 at hc
  split at hc
  · rw [String.data_append] at hc
    rcases List.mem_append.mp hc with hc | hc
    · rw [show ("0" : String).data = ['0'] from rfl] at hc
      obtain rfl := List.mem_singleton.mp hc
      decide
    · exact repr_all_digits n c hc
  · exact repr_all_digits n c hc

lemma pad4_chars (n : Nat) : ∀ c ∈ (pad4 n).data, c.isDigit := by
  intro c hc
  unfold pad4 at hc
  split at hc
  · rw [String.data_append] at hc
    rcases List.mem_append.mp hc with hc | hc
    · rw [show ("000" : String).data = ['0', '0', '0'] from rfl] at hc
      simp at hc
      subst hc
      decide
    · exact repr_all_digits n c hc
  split at hc
  · rw [String.data_append] at hc
    rcases List.mem_append.mp hc with hc | hc
    · rw [show ("00" : String).data = ['0', '0'] from rfl] at hc
      simp at hc
      subst hc
      decide
    · exact repr_all_digits n c hc
  split at hc
  · rw [String.data_append] at hc
    rcases List.mem_append.mp hc with hc | hc
    · rw [show ("0" : String).data = ['0'] from rfl] at hc
      obtain rfl := List.mem_singleton.mp hc
      decide
    · exact repr_all_digits n c hc
  · exact repr_all_digits n c hc

lemma fmtDate_chars (d : Date) : ∀ c ∈ (fmtDate d).data, c.isDigit ∨ c = '-' := by
  intro c hc
  unfold fmtDate at hc
  simp only [String.data_append] at hc
  rcases List.mem_append.mp hc with hc | hc
  rotate_left
  · exact Or.inl (pad2_chars d.day c hc)
  rcases List.mem_append.mp hc with hc | hc
  rotate_left
  · exact Or.inr (List.mem_singleton.mp hc)
  rcases List.mem_append.mp hc with hc | hc
  rotate_left
  · exact Or.inl (pad2_chars d.month c hc)
  rcases List.mem_append.mp hc with hc | hc
  · exact Or.inl (pad4_chars d.year c hc)
  · exact Or.inr (List.mem_singleton.mp hc)

lemma fmtDate_not_mem (d : Date) (c : Char) (h1 : ¬ c.isDigit) (h2 : c ≠ '-') :
    c ∉ (fmtDate d).data := by
  intro hc
  rcases fmtDate_chars d c hc with hd | rfl
  · exact h1 hd
  · exact h2 rfl

lemma fmtDate_count_bang (d : Date) : ((fmtDate d).data).count '!' = 0 :=
  List.count_eq_zero.mpr (fmtDate_not_mem d '!' (by decide) (by decide))

set_option maxHeartbeats 1600000 in
lemma open_clause_ne_created (pk : String) (s e : Date) (f : String) :
    open_clause pk s e f ≠ created_clause pk s e f := by
  intro h
  have hd := congrArg (fun t => t.data.count '!') h
  by_cases hf : f = "" <;>
    simp only [open_clause, created_clause, date_range, hf, if_true, if_false, ne_eq,
      String.data_append, List.count_append, reduceIte] at hd
  · rw [fmtDate_count_bang s, fmtDate_count_bang e] at hd
    simp [List.count_cons] at hd
  · rw [fmtDate_count_bang s, fmtDate_count_bang e] at hd
    simp [List.count_cons] at hd


set_option maxHeartbeats 1600000 in
lemma open_clause_ne_resolved (pk : String) (s e : Date) (f : String) :
    open_clause pk s e f ≠ resolved_clause pk s e f := by
  intro h
  have hd := congrArg (fun t => t.data.count '!') h
  by_cases hf : f = "" <;>
    simp only [open_clause, resolved_clause, hf, if_true, if_false, ne_eq,
      String.data_append, List.count_append, reduceIte] at hd <;>
  · rw [fmtDate_count_bang s, fmtDate_count_bang e] at hd
    simp [List.count_cons] at hd

/-- C2: if the tracker call for `created` succeeds and the call for
`resolved` fails, the summarizer's trace is exactly the `created` call
followed by the `resolved` call — the `open` query is never issued — and the
same failure is re-raised, so no summary record is produced. -/
theorem C2_fail_fast (http : Http) (config : JiraConfig) (start end_ : Date) (extra : String)
    (t : Nat) (ks : List String) (e : CallError)
    (h1 : call_jira_api http config (created_clause config.project_key start end_ extra) =
      .ok (t, ks))
    (h2 : call_jira_api http config (resolved_clause config.project_key start end_ extra) =
      .error e) :
    summarize_issues http config start end_ extra =
      ([.trackerCall (created_clause config.project_key start end_ extra),
        .trackerCall (resolved_clause config.project_key start end_ extra)], .error e) ∧
    Event.trackerCall (open_clause config.project_key start end_ extra) ∉
      [Event.trackerCall (created_clause config.project_key start end_ extra),
       Event.trackerCall (resolved_clause config.project_key start end_ extra)] := by
  constructor
  · unfold summarize_issues build_jql
    simp only [runQueries, h1, h2, Except.map]
  · intro hmem
    simp only [List.mem_cons, List.not_mem_nil, or_false, Event.trackerCall.injEq] at hmem
    rcases hmem with h | h
    · exact open_clause_ne_created _ _ _ _ h
    · exact open_clause_ne_resolved _ _ _ _ h

set_option maxRecDepth 8000 in
/-- Witness for C2 at a concrete stubbed tracker that succeeds on the
`created` query and fails on the `resolved` query. -/
theorem C2_fail_fast_witness :
    summarize_issues
      (fun req => if req.jql = created_clause "P" ⟨2024, 1, 1⟩ ⟨2024, 1, 8⟩ "" then
        .ok ⟨200, "", ⟨some 1, some []⟩⟩ else .error "boom")
      ⟨"https://x", "P", "a", "t", true⟩ ⟨2024, 1, 1⟩ ⟨2024, 1, 8⟩ "" =
      ([.trackerCall (created_clause "P" ⟨2024, 1, 1⟩ ⟨2024, 1, 8⟩ ""),
        .trackerCall (resolved_clause "P" ⟨2024, 1, 1⟩ ⟨2024, 1, 8⟩ "")],
        .error (.transport "boom")) :=
  (C2_fail_fast
    (fun req => if req.jql = created_clause "P" ⟨2024, 1, 1⟩ ⟨2024, 1, 8⟩ "" then
      .ok ⟨200, "", ⟨some 1, some []⟩⟩ else .error "boom")
    ⟨"https://x", "P", "a", "t", true⟩ ⟨2024, 1, 1⟩ ⟨2024, 1, 8⟩ "" 1 [] (.transport "boom")
    rfl rfl).1

/-! ## Orchestrator lemmas -/

lemma runQueries_events (call : String → Except CallError (Nat × List String)) :
    ∀ qs : List (String × String), ∀ ev ∈ (runQueries call qs).1,
      ∃ q, ev = Event.trackerCall q := by
  intro qs
  induction qs with
  | nil => intro ev hev; simp [runQueries] at hev
  | cons hd tl ih =>
    obtain ⟨label, jql⟩ := hd
    intro ev hev
    cases hcall : call jql with
    | error e =>
      simp only [runQueries, hcall] at hev
      simp at hev
      exact ⟨jql, hev⟩
    | ok v =>
      obtain ⟨tt, kk⟩ := v
      simp only [runQueries, hcall] at hev
      simp at hev
      rcases hev with rfl | hev
      · exact ⟨jql, rfl⟩
      · exact ih ev hev

lemma summarize_issues_fst (http : Http) (config : JiraConfig) (start end_ : Date)
    (extra : String) :
    (summarize_issues http config start end_ extra).1 =
      (runQueries (call_jira_api http config)
        (build_jql config.project_key start end_ extra)).1 := by
  simp only [summarize_issues]

/-- C5: in a dry run in which configuration loading and summarization succeed,
the orchestrator's observable trace is the summarizer's tracker calls followed
by printing the rendered report body, the exit code is the success outcome
(distinct from the configuration-, summarization- and delivery-error
outcomes), and the mail sender is never invoked. -/
theorem C5_dry_run (env : Env) (http : Http) (smtpSend : Smtp) (args : Args) (now : Date)
    (jc : JiraConfig) (sc : SmtpConfig) (evs : List Event) (summary : JiraIssueSummary)
    (hdry : args.dryRun = true)
    (hjc : JiraConfig.from_env env = .ok jc)
    (hsc : SmtpConfig.from_env env = .ok sc)
    (hsum : summarize_issues http jc (subDays now args.days) now args.filters =
      (evs, .ok summary)) :
    mainRun env http smtpSend args now =
      .ok (evs ++ [Event.printed (build_email_body summary jc)], exitSuccess) ∧
    (∀ sub body, Event.mailSend sub body ∉
      evs ++ [Event.printed (build_email_body summary jc)]) ∧
    exitSuccess ≠ exitConfigError ∧ exitSuccess ≠ exitSummarizeError ∧
    exitSuccess ≠ exitDeliveryError := by
  refine ⟨?_, ?_, by decide, by decide, by decide⟩
  · simp only [mainRun, hjc, hsc, hsum, hdry]
    simp
  · intro sub body hmem
    rcases List.mem_append.mp hmem with hmem | hmem
    · have hevs : evs = (summarize_issues http jc (subDays now args.days) now args.filters).1 := by
        rw [hsum]
      rw [hevs, summarize_issues_fst] at hmem
      obtain ⟨q, hq⟩ := runQueries_events _ _ _ hmem
      exact Event.noConfusion hq
    · simp at hmem

set_option maxRecDepth 8000 in
/-- Witness for C5 at a concrete environment, stub tracker and clock. -/
theorem C5_dry_run_witness :
    mainRun (fun _ => some "5") (fun _ => .ok ⟨200, "", ⟨some 3, some []⟩⟩)
      (fun _ _ _ => .ok ()) ⟨7, "", true⟩ ⟨2024, 1, 8⟩ =
      .ok ([Event.trackerCall (created_clause "5" (subDays ⟨2024, 1, 8⟩ 7) ⟨2024, 1, 8⟩ ""),
            Event.trackerCall (resolved_clause "5" (subDays ⟨2024, 1, 8⟩ 7) ⟨2024, 1, 8⟩ ""),
            Event.trackerCall (open_clause "5" (subDays ⟨2024, 1, 8⟩ 7) ⟨2024, 1, 8⟩ "")] ++
          [Event.printed (build_email_body
            ⟨3, 3, 3, [("created", []), ("resolved", []), ("open", [])]⟩
            ⟨"5", "5", "5", "5", false⟩)], exitSuccess) :=
  (C5_dry_run (fun _ => some "5") (fun _ => .ok ⟨200, "", ⟨some 3, some []⟩⟩)
    (fun _ _ _ => .ok ()) ⟨7, "", true⟩ ⟨2024, 1, 8⟩
    ⟨"5", "5", "5", "5", false⟩ ⟨"5", 5, "5", "5", "5", "5", false⟩
    [Event.trackerCall (created_clause "5" (subDays ⟨2024, 1, 8⟩ 7) ⟨2024, 1, 8⟩ ""),
     Event.trackerCall (resolved_clause "5" (subDays ⟨2024, 1, 8⟩ 7) ⟨2024, 1, 8⟩ ""),
     Event.trackerCall (open_clause "5" (subDays ⟨2024, 1, 8⟩ 7) ⟨2024, 1, 8⟩ "")]
    ⟨3, 3, 3, [("created", []), ("resolved", []), ("open", [])]⟩
    rfl rfl rfl rfl).1

lemma smtp_from_env_missing (env : Env)
    (hmiss : ∃ name ∈ smtpRequiredVars, envMissing env name = true) :
    SmtpConfig.from_env env = .error (.environmentError
      ("Missing required SMTP environment variables: " ++
        String.intercalate ", " (smtpRequiredVars.filter (envMissing env)))) := by
  obtain ⟨name, hmem, hm⟩ := hmiss
  have hne : smtpRequiredVars.filter (envMissing env) ≠ [] := by
    intro h0
    have hmf : name ∈ smtpRequiredVars.filter (envMissing env) :=
      List.mem_filter.mpr ⟨hmem, hm⟩
    rw [h0] at hmf
    exact List.not_mem_nil _ hmf
  unfold SmtpConfig.from_env
  simp [hne]

lemma jira_from_env_cases (env : Env) :
    (∃ m, JiraConfig.from_env env = .error (.environmentError m)) ∨
    (∃ c, JiraConfig.from_env env = .ok c) := by
  cases hj : JiraConfig.from_env env with
  | ok c => exact Or.inr ⟨c, rfl⟩
  | error e =>
    cases e with
    | environmentError m => exact Or.inl ⟨m, rfl⟩
    | valueError m =>
      exfalso
      simp only [JiraConfig.from_env] at hj
      split at hj <;> simp at hj

/-- C10: even with the dry-run flag set, a missing (unset or empty) required
SMTP variable makes the run exit with the configuration-error outcome and an
empty trace — no tracker query is issued, nothing is printed, and the mail
sender is not invoked. -/
theorem C10_dry_run_still_checks_mail_config (env : Env) (http : Http) (smtpSend : Smtp)
    (args : Args) (now : Date) (hdry : args.dryRun = true)
    (hmiss : ∃ name ∈ smtpRequiredVars, envMissing env name = true) :
    mainRun env http smtpSend args now = .ok ([], exitConfigError) ∧
    exitConfigError ≠ exitSuccess := by
  refine ⟨?_, by decide⟩
  rcases jira_from_env_cases env with ⟨m, hj⟩ | ⟨c, hj⟩
  · simp only [mainRun, hj]
  · simp only [mainRun, hj, smtp_from_env_missing env hmiss]

/-- Witness for C10: a concrete dry-run invocation with `SMTP_HOST` unset. -/
theorem C10_dry_run_still_checks_mail_config_witness :
    mainRun (fun n => if n = "SMTP_HOST" then none else some "5")
      (fun _ => .ok ⟨200, "", ⟨some 3, some []⟩⟩) (fun _ _ _ => .ok ())
      ⟨7, "", true⟩ ⟨2024, 1, 8⟩ = .ok ([], exitConfigError) :=
  (C10_dry_run_still_checks_mail_config (fun n => if n = "SMTP_HOST" then none else some "5")
    (fun _ => .ok ⟨200, "", ⟨some 3, some []⟩⟩) (fun _ _ _ => .ok ())
    ⟨7, "", true⟩ ⟨2024, 1, 8⟩ rfl ⟨"SMTP_HOST", by decide, rfl⟩).1

/-- C9: a label of the fixed label set with an empty key sequence renders as
its sub-heading followed by the "no issues found" notice and nothing else —
in particular neither of its lines contains `<ul>` or `<li>` list markup; the
notice appears among the rendered body's lines whenever such a label occurs
in the summary; and the renderer is a pure function of summary and config. -/
theorem C9_empty_label_notice (config : JiraConfig) (summary : JiraIssueSummary)
    (label : String) (hlabel : label ∈ ["created", "resolved", "open"]) :
    (labelSection config label [] =
      ["<p><strong>" ++ pyTitle label ++ " issues</strong>:</p>", "<p>No issues found.</p>"]) ∧
    (∀ line ∈ labelSection config label [], ¬ strHas line "<ul>" ∧ ¬ strHas line "<li>") ∧
    ((label, []) ∈ summary.issue_keys →
      "<p>No issues found.</p>" ∈ bodyLines summary config) ∧
    build_email_body summary config = build_email_body summary config := by
  have h1 : labelSection config label [] =
      ["<p><strong>" ++ pyTitle label ++ " issues</strong>:</p>", "<p>No issues found.</p>"] := by
    simp [labelSection]
  refine ⟨h1, ?_, ?_, rfl⟩
  · rw [h1]
    fin_cases hlabel <;> decide
  · intro hmem
    unfold bodyLines
    refine List.mem_append.mpr (Or.inr ?_)
    refine List.mem_flatten.mpr
      ⟨labelSection config label [], List.mem_map.mpr ⟨(label, []), hmem, rfl⟩, ?_⟩
    rw [h1]
    simp

/-- Witness for C9 at the `open` label with a concrete config. -/
theorem C9_empty_label_notice_witness :
    labelSection ⟨"https://x", "P", "a", "t", true⟩ "open" [] =
      ["<p><strong>" ++ pyTitle "open" ++ " issues</strong>:</p>", "<p>No issues found.</p>"] :=
  (C9_empty_label_notice ⟨"https://x", "P", "a", "t", true⟩ ⟨0, 0, 0, []⟩ "open" (by decide)).1

/-! ## Link-scanner lemmas for the rendering round trip -/

lemma runSt_append (st : ScanSt) (a b : List Char) :
    runSt st (a ++ b) = runSt (runSt st a) b := by
  simp [runSt, List.foldl_append]

lemma runOut_append (a : List Char) : ∀ (st : ScanSt) (b : List Char),
    runOut st (a ++ b) = runOut st a ++ runOut (runSt st a) b := by
  induction a with
  | nil => intro st b; simp [runOut, runSt]
  | cons c cs ih =>
    intro st b
    have h2 := ih (stepSt st c) b
    simp only [List.cons_append, runOut, runSt, List.foldl_cons, List.append_eq] at h2 ⊢
    rw [h2, List.append_assoc]

lemma isDigit_ne_h {c : Char} (h : c.isDigit) : c ≠ 'h' := by
  intro heq
  subst heq
  exact absurd h (by decide)

lemma runSt_s0_no_h (l : List Char) (h : ∀ c ∈ l, c ≠ 'h') :
    runSt .s0 l = .s0 := by
  induction l with
  | nil => rfl
  | cons c cs ih =>
    have hc : c ≠ 'h' := h c (List.mem_cons_self _ _)
    have : stepSt .s0 c = .s0 := by simp [stepSt, hc]
    simp only [runSt, List.foldl_cons, this]
    exact ih (fun d hd => h d (List.mem_cons_of_mem _ hd))

lemma runOut_s0_no_h (l : List Char) (h : ∀ c ∈ l, c ≠ 'h') :
    runOut .s0 l = [] := by
  induction l with
  | nil => rfl
  | cons c cs ih =>
    have hc : c ≠ 'h' := h c (List.mem_cons_self _ _)
    have hst : stepSt .s0 c = .s0 := by simp [stepSt, hc]
    have hout : stepOut .s0 c = [] := rfl
    simp only [runOut, hst, hout, List.nil_append]
    exact ih (fun d hd => h d (List.mem_cons_of_mem _ hd))

lemma runSt_href (l : List Char) : ∀ acc, (∀ c ∈ l, c ≠ '\'') →
    runSt (.href acc) l = .href (acc ++ l) := by
  induction l with
  | nil => intro acc _; simp [runSt]
  | cons c cs ih =>
    intro acc h
    have hc : c ≠ '\'' := h c (List.mem_cons_self _ _)
    have hst : stepSt (.href acc) c = .href (acc ++ [c]) := by simp [stepSt, hc]
    simp only [runSt, List.foldl_cons, hst]
    have := ih (acc ++ [c]) (fun d hd => h d (List.mem_cons_of_mem _ hd))
    simpa [List.append_assoc] using this

lemma runOut_href (l : List Char) : ∀ acc, (∀ c ∈ l, c ≠ '\'') →
    runOut (.href acc) l = [] := by
  induction l with
  | nil => intro acc _; rfl
  | cons c cs ih =>
    intro acc h
    have hc : c ≠ '\'' := h c (List.mem_cons_self _ _)
    have hst : stepSt (.href acc) c = .href (acc ++ [c]) := by simp [stepSt, hc]
    have hout : stepOut (.href acc) c = [] := rfl
    simp only [runOut, hst, hout, List.nil_append]
    exact ih (acc ++ [c]) (fun d hd => h d (List.mem_cons_of_mem _ hd))

lemma runSt_txt (l : List Char) : ∀ url acc, (∀ c ∈ l, c ≠ '<') →
    runSt (.txt url acc) l = .txt url (acc ++ l) := by
  induction l with
  | nil => intro url acc _; simp [runSt]
  | cons c cs ih =>
    intro url acc h
    have hc : c ≠ '<' := h c (List.mem_cons_self _ _)
    have hst : stepSt (.txt url acc) c = .txt url (acc ++ [c]) := by simp [stepSt, hc]
    simp only [runSt, List.foldl_cons, hst]
    have := ih url (acc ++ [c]) (fun d hd => h d (List.mem_cons_of_mem _ hd))
    simpa [List.append_assoc] using this

lemma runOut_txt (l : List Char) : ∀ url acc, (∀ c ∈ l, c ≠ '<') →
    runOut (.txt url acc) l = [] := by
  induction l with
  | nil => intro url acc _; rfl
  | cons c cs ih =>
    intro url acc h
    have hc : c ≠ '<' := h c (List.mem_cons_self _ _)
    have hst : stepSt (.txt url acc) c = .txt url (acc ++ [c]) := by simp [stepSt, hc]
    have hout : stepOut (.txt url acc) c = [] := by simp [stepOut, hc]
    simp only [runOut, hst, hout, List.nil_append]
    exact ih url (acc ++ [c]) (fun d hd => h d (List.mem_cons_of_mem _ hd))

lemma runSt_openTag (u : List Char) : runSt (.href u) ("'>").data = .txt u [] := by
  simp [runSt, stepSt]

lemma runOut_openTag (u : List Char) : runOut (.href u) ("'>").data = [] := by
  simp [runOut, stepSt, stepOut]

lemma runSt_closeTag (u k : List Char) : runSt (.txt u k) ("</a></li>").data = .s0 := by
  simp [runSt, stepSt]

lemma runOut_closeTag (u k : List Char) :
    runOut (.txt u k) ("</a></li>").data = [(String.mk u, String.mk k)] := by
  simp [runOut, stepSt, stepOut]

lemma linkItem_run (config : JiraConfig) (key : String)
    (hbase : ∀ c ∈ config.base_url.data, c ≠ '\'')
    (hkq : ∀ c ∈ key.data, c ≠ '\'') (hkl : ∀ c ∈ key.data, c ≠ '<') :
    runSt .s0 (linkItem config key).data = .s0 ∧
    runOut .s0 (linkItem config key).data =
      [(config.base_url ++ "/browse/" ++ key, key)] := by
  have hurlq : ∀ c ∈ (config.base_url ++ "/browse/" ++ key).data, c ≠ '\'' := by
    intro c hc
    simp only [String.data_append, List.mem_append] at hc
    rcases hc with (hc | hc) | hc
    · exact hbase c hc
    · intro heq
      subst heq
      exact absurd hc (by decide)
    · exact hkq c hc
  have hdata : (linkItem config key).data =
      ("<li><a href='").data ++ ((config.base_url ++ "/browse/" ++ key).data ++
        (("'>").data ++ (key.data ++ ("</a></li>").data))) := by
    simp [linkItem, String.data_append, List.append_assoc]
  have s1 : runSt ScanSt.s0 ("<li><a href='").data = .href [] := by decide
  have o1 : runOut ScanSt.s0 ("<li><a href='").data = [] := by decide
  have s2 : runSt (.href []) (config.base_url ++ "/browse/" ++ key).data =
      .href (config.base_url ++ "/browse/" ++ key).data := by
    simpa using runSt_href _ [] hurlq
  have o2 : runOut (.href []) (config.base_url ++ "/browse/" ++ key).data = [] :=
    runOut_href _ [] hurlq
  have s4 : runSt (.txt (config.base_url ++ "/browse/" ++ key).data []) key.data =
      .txt (config.base_url ++ "/browse/" ++ key).data key.data := by
    simpa using runSt_txt _ _ [] hkl
  have o4 : runOut (.txt (config.base_url ++ "/browse/" ++ key).data []) key.data = [] :=
    runOut_txt _ _ [] hkl
  constructor
  · rw [hdata, runSt_append, s1, runSt_append, s2, runSt_append, runSt_openTag,
      runSt_append, s4, runSt_closeTag]
  · rw [hdata, runOut_append, o1, s1, runOut_append, o2, s2, runOut_append,
      runOut_openTag, runSt_openTag, runOut_append, o4, s4, runOut_closeTag]
    simp only [List.nil_append, List.append_nil, List.cons.injEq, Prod.mk.injEq, and_true]

lemma strJoin_items_run (config : JiraConfig) (keys : List String)
    (hbase : ∀ c ∈ config.base_url.data, c ≠ '\'')
    (hk : ∀ k ∈ keys, (∀ c ∈ k.data, c ≠ '\'') ∧ (∀ c ∈ k.data, c ≠ '<')) :
    runSt .s0 (strJoin (keys.map (linkItem config))).data = .s0 ∧
    runOut .s0 (strJoin (keys.map (linkItem config))).data =
      keys.map (fun k => (config.base_url ++ "/browse/" ++ k, k)) := by
  induction keys with
  | nil => exact ⟨rfl, rfl⟩
  | cons k ks ih =>
    obtain ⟨hq, hl⟩ := hk k (List.mem_cons_self _ _)
    have ihh := ih (fun k2 h2 => hk k2 (List.mem_cons_of_mem _ h2))
    obtain ⟨hs, ho⟩ := linkItem_run config k hbase hq hl
    have hdata : (strJoin ((k :: ks).map (linkItem config))).data =
        (linkItem config k).data ++ (strJoin (ks.map (linkItem config))).data := by
      simp [strJoin, String.data_append]
    constructor
    · rw [hdata, runSt_append, hs, ihh.1]
    · rw [hdata, runOut_append, ho, hs, ihh.2]
      simp

lemma ulLine_run (config : JiraConfig) (keys : List String)
    (hbase : ∀ c ∈ config.base_url.data, c ≠ '\'')
    (hk : ∀ k ∈ keys, (∀ c ∈ k.data, c ≠ '\'') ∧ (∀ c ∈ k.data, c ≠ '<')) :
    runSt .s0 ("<ul>" ++ strJoin (keys.map (linkItem config)) ++ "</ul>").data = .s0 ∧
    runOut .s0 ("<ul>" ++ strJoin (keys.map (linkItem config)) ++ "</ul>").data =
      keys.map (fun k => (config.base_url ++ "/browse/" ++ k, k)) := by
  obtain ⟨hs, ho⟩ := strJoin_items_run config keys hbase hk
  have hdata : ("<ul>" ++ strJoin (keys.map (linkItem config)) ++ "</ul>").data =
      ("<ul>").data ++ ((strJoin (keys.map (linkItem config))).data ++ ("</ul>").data) := by
    simp [String.data_append]
  have s1 : runSt ScanSt.s0 ("<ul>").data = .s0 := by decide
  have o1 : runOut ScanSt.s0 ("<ul>").data = [] := by decide
  have s2 : runSt ScanSt.s0 ("</ul>").data = .s0 := by decide
  have o2 : runOut ScanSt.s0 ("</ul>").data = [] := by decide
  constructor
  · rw [hdata, runSt_append, s1, runSt_append, hs, s2]
  · rw [hdata, runOut_append, o1, s1, runOut_append, ho, hs, o2]
    simp

lemma labelSection_run (config : JiraConfig) (label : String) (keys : List String)
    (hlabel : label ∈ ["created", "resolved", "open"])
    (hbase : ∀ c ∈ config.base_url.data, c ≠ '\'')
    (hk : ∀ k ∈ keys, (∀ c ∈ k.data, c ≠ '\'') ∧ (∀ c ∈ k.data, c ≠ '<')) :
    (∀ line ∈ labelSection config label keys, runSt .s0 line.data = .s0) ∧
    ((labelSection config label keys).map (fun line => runOut .s0 line.data)).flatten =
      keys.map (fun k => (config.base_url ++ "/browse/" ++ k, k)) := by
  have hhead : runSt ScanSt.s0 ("<p><strong>" ++ pyTitle label ++ " issues</strong>:</p>").data =
      .s0 ∧ runOut ScanSt.s0 ("<p><strong>" ++ pyTitle label ++ " issues</strong>:</p>").data =
      [] := by
    fin_cases hlabel <;> exact ⟨by decide, by decide⟩
  have hnotice : runSt ScanSt.s0 ("<p>No issues found.</p>").data = .s0 ∧
      runOut ScanSt.s0 ("<p>No issues found.</p>").data = [] := ⟨by decide, by decide⟩
  by_cases hempty : keys = []
  · subst hempty
    have hsec : labelSection config label [] =
        ["<p><strong>" ++ pyTitle label ++ " issues</strong>:</p>", "<p>No issues found.</p>"] := by
      simp [labelSection]
    rw [hsec]
    constructor
    · intro line hline
      simp only [List.mem_cons, List.not_mem_nil, or_false] at hline
      rcases hline with rfl | rfl
      · exact hhead.1
      · exact hnotice.1
    · simp only [List.map_cons, List.map_nil, hhead.2, hnotice.2, List.flatten_cons,
        List.flatten_nil, List.map_nil, List.append_nil]
  · obtain ⟨hus, huo⟩ := ulLine_run config keys hbase hk
    have hsec : labelSection config label keys =
        ["<p><strong>" ++ pyTitle label ++ " issues</strong>:</p>",
         "<ul>" ++ strJoin (keys.map (linkItem config)) ++ "</ul>"] := by
      simp [labelSection, hempty]
    rw [hsec]
    constructor
    · intro line hline
      simp only [List.mem_cons, List.not_mem_nil, or_false] at hline
      rcases hline with rfl | rfl
      · exact hhead.1
      · exact hus
    · simp only [List.map_cons, List.map_nil, hhead.2, huo, List.flatten_cons,
        List.flatten_nil, List.nil_append, List.append_nil]

lemma sections_run (config : JiraConfig) :
    ∀ entries : List (String × List String),
    (∀ p ∈ entries, p.1 ∈ ["created", "resolved", "open"]) →
    (∀ c ∈ config.base_url.data, c ≠ '\'') →
    (∀ p ∈ entries, ∀ k ∈ p.2, (∀ c ∈ k.data, c ≠ '\'') ∧ (∀ c ∈ k.data, c ≠ '<')) →
    (∀ line ∈ (entries.map (fun p => labelSection config p.1 p.2)).flatten,
      runSt .s0 line.data = .s0) ∧
    ((entries.map (fun p => labelSection config p.1 p.2)).flatten.map
        (fun line => runOut .s0 line.data)).flatten =
      (entries.map (fun p =>
        p.2.map (fun k => (config.base_url ++ "/browse/" ++ k, k)))).flatten := by
  intro entries
  induction entries with
  | nil => intro _ _ _; exact ⟨by simp, by simp⟩
  | cons p rest ih =>
    intro hlabels hbase hkeys
    obtain ⟨hsec1, hsec2⟩ := labelSection_run config p.1 p.2
      (hlabels p (List.mem_cons_self _ _)) hbase (hkeys p (List.mem_cons_self _ _))
    obtain ⟨ih1, ih2⟩ := ih (fun q hq => hlabels q (List.mem_cons_of_mem _ hq)) hbase
      (fun q hq => hkeys q (List.mem_cons_of_mem _ hq))
    constructor
    · intro line hline
      simp only [List.map_cons, List.flatten_cons, List.mem_append] at hline
      rcases hline with hline | hline
      · exact hsec1 line hline
      · exact ih1 line hline
    · simp only [List.map_cons, List.flatten_cons, List.map_append, List.flatten_append,
        hsec2, ih2]

lemma runOut_joinLines : ∀ lines : List String,
    (∀ line ∈ lines, runSt .s0 line.data = .s0) →
    runOut .s0 (joinLines lines).data =
      (lines.map (fun line => runOut .s0 line.data)).flatten := by
  intro lines
  induction lines with
  | nil => intro _; rfl
  | cons a rest ih =>
    intro h
    cases rest with
    | nil => simp [joinLines]
    | cons b rest2 =>
      have ha : runSt ScanSt.s0 a.data = .s0 := h a (List.mem_cons_self _ _)
      have hrest := ih (fun l hl => h l (List.mem_cons_of_mem _ hl))
      have hdata : (joinLines (a :: b :: rest2)).data =
          a.data ++ (("\n").data ++ (joinLines (b :: rest2)).data) := by
        simp [joinLines, String.data_append]
      have snl : runSt ScanSt.s0 (("\n").data) = .s0 := by decide
      have onl : runOut ScanSt.s0 (("\n").data) = [] := by decide
      rw [hdata, runOut_append, ha, runOut_append, onl, snl, hrest]
      simp

lemma bodyLines_run (summary : JiraIssueSummary) (config : JiraConfig)
    (hbase : ∀ c ∈ config.base_url.data, c ≠ '\'')
    (hlabels : ∀ p ∈ summary.issue_keys, p.1 ∈ ["created", "resolved", "open"])
    (hkeys : ∀ p ∈ summary.issue_keys, ∀ k ∈ p.2,
      (∀ c ∈ k.data, c ≠ '\'') ∧ (∀ c ∈ k.data, c ≠ '<')) :
    (∀ line ∈ bodyLines summary config, runSt .s0 line.data = .s0) ∧
    ((bodyLines summary config).map (fun line => runOut .s0 line.data)).flatten =
      (summary.issue_keys.map (fun p =>
        p.2.map (fun k => (config.base_url ++ "/browse/" ++ k, k)))).flatten := by
  have hcount : ∀ (pre : String) (n : Nat) (post : String),
      (∀ c ∈ pre.data, c ≠ 'h') → (∀ c ∈ post.data, c ≠ 'h') →
      (∀ c ∈ (pre ++ Nat.repr n ++ post).data, c ≠ 'h') := by
    intro pre n post hpre hpost c hc
    simp only [String.data_append, List.mem_append] at hc
    rcases hc with (hc | hc) | hc
    exacts [hpre c hc, isDigit_ne_h (repr_all_digits n c hc), hpost c hc]
  have hc1 := hcount "  <li>Issues created: <strong>" summary.created_count "</strong></li>"
    (by decide) (by decide)
  have hc2 := hcount "  <li>Issues resolved: <strong>" summary.resolved_count "</strong></li>"
    (by decide) (by decide)
  have hc3 := hcount "  <li>Issues currently open: <strong>" summary.open_count "</strong></li>"
    (by decide) (by decide)
  obtain ⟨hsec1, hsec2⟩ := sections_run config summary.issue_keys hlabels hbase hkeys
  constructor
  · intro line hline
    unfold bodyLines at hline
    rcases List.mem_append.mp hline with h7 | hsec
    · simp only [List.mem_cons, List.not_mem_nil, or_false] at h7
      rcases h7 with rfl | rfl | rfl | rfl | rfl | rfl | rfl
      · decide
      · decide
      · exact runSt_s0_no_h _ hc1
      · exact runSt_s0_no_h _ hc2
      · exact runSt_s0_no_h _ hc3
      · decide
      · decide
    · exact hsec1 line hsec
  · unfold bodyLines
    rw [List.map_append, List.flatten_append, hsec2]
    have e1 : runOut ScanSt.s0 ("<h2>Weekly Jira Project Summary</h2>").data = [] := by decide
    have e2 : runOut ScanSt.s0 ("<ul>").data = [] := by decide
    have e3 : runOut ScanSt.s0 ("</ul>").data = [] := by decide
    have e4 : runOut ScanSt.s0 ("<h3>Issue Links</h3>").data = [] := by decide
    simp only [List.map_cons, List.map_nil, e1, e2, e3, e4,
      runOut_s0_no_h _ hc1, runOut_s0_no_h _ hc2, runOut_s0_no_h _ hc3,
      List.flatten_cons, List.flatten_nil, List.nil_append]

/-- C8 (amended): rendering a summary whose labels come from the fixed label
set and whose keys and base URL contain no markup-significant characters (no
apostrophe in the base URL; no apostrophe and no `<` in the keys), then
scanning the produced markup for anchors, recovers exactly the
`base_url/browse/<key>` URLs of the summary's key sequences, in each label's
original order, with the key as the link text. -/
theorem C8_render_roundtrip (config : JiraConfig) (summary : JiraIssueSummary)
    (hbase : ∀ c ∈ config.base_url.data, c ≠ '\'')
    (hlabels : ∀ p ∈ summary.issue_keys, p.1 ∈ ["created", "resolved", "open"])
    (hkeys : ∀ p ∈ summary.issue_keys, ∀ k ∈ p.2,
      (∀ c ∈ k.data, c ≠ '\'') ∧ (∀ c ∈ k.data, c ≠ '<')) :
    extractLinks (build_email_body summary config) =
      (summary.issue_keys.map (fun p =>
        p.2.map (fun k => (config.base_url ++ "/browse/" ++ k, k)))).flatten := by
  obtain ⟨h1, h2⟩ := bodyLines_run summary config hbase hlabels hkeys
  unfold extractLinks build_email_body
  rw [runOut_joinLines _ h1, h2]

/-- Witness for C8 at a concrete summary and config. -/
theorem C8_render_roundtrip_witness :
    extractLinks (build_email_body
      ⟨12, 9, 5, [("created", ["SCAL-1"]), ("resolved", []), ("open", ["SCAL-123", "SCAL-118"])]⟩
      ⟨"https://x.example", "SCAL", "a", "t", true⟩) =
      [("https://x.example/browse/SCAL-1", "SCAL-1"),
       ("https://x.example/browse/SCAL-123", "SCAL-123"),
       ("https://x.example/browse/SCAL-118", "SCAL-118")] := by
  have h := C8_render_roundtrip ⟨"https://x.example", "SCAL", "a", "t", true⟩
    ⟨12, 9, 5, [("created", ["SCAL-1"]), ("resolved", []), ("open", ["SCAL-123", "SCAL-118"])]⟩
    (by decide) (by decide) (by decide)
  rw [h]
  rfl

set_option maxRecDepth 8000 in
/-- Counterexample to C8 as stated: with the issue key `SCAL-1'X`, whose
apostrophe ends the href attribute early, scanning the rendered markup does
not recover the `base_url/browse/<key>` link of the summary. -/
theorem C8_counterexample :
    extractLinks (build_email_body
      ⟨1, 0, 0, [("created", ["SCAL-1'X"]), ("resolved", []), ("open", [])]⟩
      ⟨"https://x.example", "SCAL", "a", "t", true⟩) ≠
      [(("https://x.example" : String) ++ "/browse/" ++ "SCAL-1'X", "SCAL-1'X")] := by
  decide
